import Mathlib

/-!
Shallow embedding of the URL-shortener backend's core write and read paths:
the `UrlController.shortenUrl` / `UrlController.redirectUrl` controllers,
the `urlSchema` document validation and instance methods, and the analytics
timeframe handling (`getUrlAnalytics`, `getUserAnalytics`, `getSystemAnalytics`,
`validateAnalyticsQuery`).

Timestamps are modelled as `Nat` milliseconds.  The Mongo store is a list of
URL documents; `findOne` is `List.find?`, `findByIdAndUpdate` with `$inc`/`$push`
updates the first document matching the id.  Fallible persistence writes and
the optional `geoip-lite` module are explicit parameters.
-/

namespace UrlShortener

/-- One entry of `clickHistory`, as built in `UrlController.redirectUrl`
(`clickData`): timestamp, ip, user agent, referer, country, city. -/
structure ClickData where
  timestamp : Nat
  ip : String
  userAgent : Option String
  referer : Option String
  country : String
  city : String
deriving Repr, DecidableEq

/-- A document of the `urls` collection (`urlSchema` in `models/Url.js`),
restricted to the fields the controllers touch.  Schema defaults:
`isActive := true`, `expiresAt := null`, `clicks := 0`, `uniqueClicks := 0`,
`analytics.totalClicks := 0`, `analytics.uniqueVisitors := 0`. -/
structure UrlDoc where
  id : Nat
  originalUrl : String
  shortCode : String
  shortUrl : String
  customCode : Option String
  userId : Option Nat
  title : Option String
  description : Option String
  isActive : Bool
  expiresAt : Option Nat
  clicks : Nat
  uniqueClicks : Nat
  analyticsTotalClicks : Nat
  analyticsUniqueVisitors : Nat
  lastAccessedAt : Option Nat
  clickHistory : List ClickData
deriving Repr, DecidableEq

/-- The `urls` collection. -/
structure Store where
  urls : List UrlDoc
deriving Repr, DecidableEq

/-- Result of `geoip.lookup(ip)`: country and city may each be absent. -/
structure GeoInfo where
  country : Option String
  city : Option String
deriving Repr, DecidableEq

/-- Outcome of the redirect endpoint: an HTTP redirect (`res.redirect(status, url)`),
a JSON error response (`res.status(s).json({ error })`), or an exception forwarded
to the Express error handler (`next(error)`). -/
inductive RedirectOutcome where
  | redirect (status : Nat) (location : String)
  | jsonError (status : Nat) (errorCode : String)
  | serverError (msg : String)
deriving Repr, DecidableEq

/-- The single query of `redirectUrl`:
`Url.findOne({ shortCode, isActive: true, $or: [{expiresAt: null}, {expiresAt: {$gt: new Date()}}] })`. -/
def matchesRedirectQuery (now : Nat) (code : String) (u : UrlDoc) : Bool :=
  u.shortCode == code && u.isActive &&
    (match u.expiresAt with
     | none => true
     | some e => now < e)

/-- `findOne` on the redirect query: first matching document. -/
def findRedirectTarget (now : Nat) (store : Store) (code : String) : Option UrlDoc :=
  store.urls.find? (matchesRedirectQuery now code)

/-- The `clickData` object of `redirectUrl`: `country: geo?.country || 'Unknown'`,
`city: geo?.city || 'Unknown'`. -/
def mkClickData (now : Nat) (ip : String) (ua ref : Option String)
    (geo : Option GeoInfo) : ClickData :=
  { timestamp := now, ip := ip, userAgent := ua, referer := ref,
    country := (geo.bind (fun g => g.country)).getD "Unknown",
    city := (geo.bind (fun g => g.city)).getD "Unknown" }

/-- Update the first document satisfying `p` (Mongo's `findByIdAndUpdate`
updates a single document). -/
def updateFirst (p : UrlDoc → Bool) (f : UrlDoc → UrlDoc) : List UrlDoc → List UrlDoc
  | [] => []
  | u :: rest => if p u then f u :: rest else u :: updateFirst p f rest

/-- The `$inc: { clicks: 1 }, $push: { clickHistory: clickData }` update. -/
def applyClick (cd : ClickData) (u : UrlDoc) : UrlDoc :=
  { u with clicks := u.clicks + 1, clickHistory := u.clickHistory ++ [cd] }

/-- `Url.findByIdAndUpdate(url._id, { $inc: ..., $push: ... })` on the store. -/
def recordClick (idv : Nat) (cd : ClickData) (store : Store) : Store :=
  ⟨updateFirst (fun u => u.id == idv) (applyClick cd) store.urls⟩

/-- `UrlController.redirectUrl`.  `geoip` is the optionally-loaded `geoip-lite`
module (`none` when the import failed, in which case `geoip.lookup(ip)` throws a
TypeError that the surrounding try/catch forwards to `next(error)`).
`clickWriteOk` models whether the awaited `findByIdAndUpdate` persistence write
succeeds; on failure the thrown error likewise reaches `next(error)` before any
redirect is sent. -/
def redirectUrl (geoip : Option (String → Option GeoInfo)) (clickWriteOk : Bool)
    (now : Nat) (ip : String) (ua ref : Option String)
    (store : Store) (code : String) : RedirectOutcome × Store :=
  match findRedirectTarget now store code with
  | none => (.jsonError 404 "URL_NOT_FOUND", store)
  | some u =>
    match geoip with
    | none => (.serverError "geoip unavailable", store)
    | some lookup =>
      let cd := mkClickData now ip ua ref (lookup ip)
      if clickWriteOk then
        (.redirect 301 u.originalUrl, recordClick u.id cd store)
      else
        (.serverError "click write failed", store)

/-- A fresh document with every schema default, used to build concrete states. -/
def baseDoc (idv : Nat) (code url : String) : UrlDoc :=
  { id := idv, originalUrl := url, shortCode := code,
    shortUrl := "http://localhost:5052/" ++ code, customCode := none,
    userId := none, title := none, description := none, isActive := true,
    expiresAt := none, clicks := 0, uniqueClicks := 0, analyticsTotalClicks := 0,
    analyticsUniqueVisitors := 0, lastAccessedAt := none, clickHistory := [] }

/-! ## Creation path: `UrlController.shortenUrl` and `urlSchema` validation -/

/-- Boolean prefix test on character lists. -/
def listIsPrefixOf : List Char → List Char → Bool
  | [], _ => true
  | _ :: _, [] => false
  | p :: ps, c :: cs => p == c && listIsPrefixOf ps cs

/-- Modelled from the spec: `src/utils/validateUrl.js` is not among the sources;
the spec (and the schema's `validator.isURL` options) require a well-formed URL
with an explicit `http://` or `https://` protocol.  Modelled as: the string
carries one of the two protocols followed by a nonempty remainder. -/
def validateUrl (url : String) : Bool :=
  (listIsPrefixOf "http://".data url.data && 7 < url.data.length) ||
    (listIsPrefixOf "https://".data url.data && 8 < url.data.length)

/-- `await Url.findOne({ shortCode })` used by the uniqueness loop. -/
def hasCode (store : Store) (c : String) : Bool :=
  store.urls.any (fun u => u.shortCode == c)

/-- The custom-code availability check:
`Url.findOne({ $or: [{ shortCode: customCode }, { customCode }] })`. -/
def customTaken (store : Store) (c : String) : Bool :=
  store.urls.any (fun u => u.shortCode == c || u.customCode == some c)

/-- The `while (await Url.findOne({ shortCode })) shortCode = generateShortCode();`
loop.  `gen` is the stream of successive `generateShortCode()` results (the
generator itself, `src/utils/generateShortCode.js`, is not among the sources; the
spec describes it as a random fixed-length code producer, so it is modelled as an
arbitrary candidate stream).  `fuel` bounds the unrolling of the unbounded JS
loop: `none` means the loop is still running after `fuel` replacement attempts. -/
def ensureUnique (store : Store) (gen : Nat → String) : String → Nat → Nat → Option String
  | c, _, 0 => if hasCode store c then none else some c
  | c, idx, fuel + 1 =>
    if hasCode store c then ensureUnique store gen (gen idx) (idx + 1) fuel
    else some c

/-- `urlSchema.shortCode` charset: `/^[a-zA-Z0-9_-]+$/`. -/
def shortCodeCharOk (ch : Char) : Bool :=
  ch.isAlphanum || ch == '-' || ch == '_'

/-- `urlSchema.shortCode`: minlength 3, maxlength 20, allowed charset. -/
def shortCodeValid (c : String) : Bool :=
  3 ≤ c.length && c.length ≤ 20 && c.toList.all shortCodeCharOk

/-- `urlSchema.expiresAt` validator: `!date || date > new Date()`. -/
def expiresAtValid (now : Nat) (e : Option Nat) : Bool :=
  match e with
  | none => true
  | some d => now < d

/-- Mongoose full-document validation run by `save` (and `create`): the
`originalUrl`, `shortCode` and `expiresAt` path validators. -/
def urlDocValid (now : Nat) (u : UrlDoc) : Bool :=
  validateUrl u.originalUrl && shortCodeValid u.shortCode &&
    expiresAtValid now u.expiresAt

/-- `document.save()`: succeeds iff validation passes. -/
def saveDoc (now : Nat) (u : UrlDoc) : Except String UrlDoc :=
  if urlDocValid now u then .ok u else .error "ValidationError"

/-- `urlSchema.methods.incrementClicks`: bumps `clicks`, `analytics.totalClicks`
and `lastAccessedAt`, then persists via `this.save()`. -/
def incrementClicks (now : Nat) (u : UrlDoc) : Except String UrlDoc :=
  saveDoc now { u with clicks := u.clicks + 1,
                       analyticsTotalClicks := u.analyticsTotalClicks + 1,
                       lastAccessedAt := some now }

/-- `urlSchema.methods.isExpired`: `this.expiresAt && this.expiresAt < new Date()`. -/
def isExpired (now : Nat) (u : UrlDoc) : Bool :=
  match u.expiresAt with
  | none => false
  | some e => e < now

/-- Request body of `shortenUrl`: `{ originalUrl, customCode, title, description, expiresAt }`. -/
structure ShortenRequest where
  originalUrl : String
  customCode : Option String
  title : Option String
  description : Option String
  expiresAt : Option Nat
deriving Repr, DecidableEq

/-- Outcome of the creation endpoint. -/
inductive ShortenOutcome where
  | created (doc : UrlDoc)
  | jsonError (status : Nat) (errorCode : String)
  | serverError (msg : String)
deriving Repr, DecidableEq

/-- The `urlData` document built by `shortenUrl` before `Url.create`. -/
def mkUrlDoc (newId : Nat) (userId : Option Nat) (req : ShortenRequest)
    (code : String) : UrlDoc :=
  { id := newId, originalUrl := req.originalUrl, shortCode := code,
    shortUrl := "http://localhost:5052/" ++ code,
    customCode := req.customCode, userId := userId,
    title := req.title, description := req.description,
    isActive := true, expiresAt := req.expiresAt,
    clicks := 0, uniqueClicks := 0, analyticsTotalClicks := 0,
    analyticsUniqueVisitors := 0, lastAccessedAt := none, clickHistory := [] }

/-- `await Url.create(urlData)` followed by the 201 response; a mongoose
validation failure throws and reaches `next(error)`. -/
def finishCreate (now newId : Nat) (userId : Option Nat) (req : ShortenRequest)
    (code : String) (store : Store) : ShortenOutcome × Store :=
  match saveDoc now (mkUrlDoc newId userId req code) with
  | .ok d => (.created d, ⟨store.urls ++ [d]⟩)
  | .error e => (.serverError e, store)

/-- `UrlController.shortenUrl`: URL validation, custom-code availability check
(409 `CODE_TAKEN` on collision), the uniqueness loop, then `Url.create`.  When no
custom code is supplied the first candidate is `generateShortCode()` (call 0) and
loop replacements are calls 1, 2, …; with a custom code the loop replacements
start at call 0. -/
def shortenUrl (gen : Nat → String) (fuel : Nat) (now newId : Nat)
    (userId : Option Nat) (req : ShortenRequest) (store : Store) :
    ShortenOutcome × Store :=
  if !validateUrl req.originalUrl then
    (.jsonError 400 "INVALID_URL", store)
  else
    match req.customCode with
    | some cc =>
      if customTaken store cc then (.jsonError 409 "CODE_TAKEN", store)
      else
        match ensureUnique store gen cc 0 fuel with
        | none => (.serverError "uniqueness loop still running", store)
        | some code => finishCreate now newId userId req code store
    | none =>
      match ensureUnique store gen (gen 0) 1 fuel with
      | none => (.serverError "uniqueness loop still running", store)
      | some code => finishCreate now newId userId req code store

/-! ## Analytics timeframe handling -/

/-- `validateAnalyticsQuery` middleware: `query('timeframe').optional()
.isIn(['24h', '7d', '30d', 'all'])`. -/
def validateAnalyticsQuery (q : Option String) : Bool :=
  match q with
  | none => true
  | some t => t == "24h" || t == "7d" || t == "30d" || t == "all"

/-- Default applied by the per-shortCode `getUrlAnalytics` controller:
`const { timeframe = '7d' } = req.query`. -/
def urlAnalyticsTimeframe (q : Option String) : String := q.getD "7d"

/-- The `switch (timeframe)` of the per-shortCode `getUrlAnalytics` controller,
as the window width in hours before now: 24h/7d/30d/90d, anything else 7d. -/
def urlTimeframeHours (t : String) : Nat :=
  if t = "24h" then 24
  else if t = "7d" then 7 * 24
  else if t = "30d" then 30 * 24
  else if t = "90d" then 90 * 24
  else 7 * 24

/-- Default applied by `UrlController.getUrlAnalytics` (per-link, by id):
`const { timeframe = '30d' } = req.query`. -/
def urlCtrlTimeframe (q : Option String) : String := q.getD "30d"

/-- The `switch (timeframe)` of `UrlController.getUrlAnalytics`: start of the
window as a timestamp; 24h/7d/30d before now, anything else `url.createdAt`. -/
def urlCtrlStartDate (now createdAt : Nat) (t : String) : Nat :=
  if t = "24h" then now - 24 * 60 * 60 * 1000
  else if t = "7d" then now - 7 * 24 * 60 * 60 * 1000
  else if t = "30d" then now - 30 * 24 * 60 * 60 * 1000
  else createdAt

/-- Default applied by `getUserAnalytics` and `getSystemAnalytics`:
`const { timeframe = '30d' } = req.query`. -/
def userAnalyticsTimeframe (q : Option String) : String := q.getD "30d"

/-- The `switch (timeframe)` of `getUserAnalytics` / `getSystemAnalytics`, as the
window width in hours before now: 7d/30d/90d, anything else 30d. -/
def userTimeframeHours (t : String) : Nat :=
  if t = "7d" then 7 * 24
  else if t = "30d" then 30 * 24
  else if t = "90d" then 90 * 24
  else 30 * 24

/-! ## Analytics events (`analyticsSchema`) -/

/-- A document of the `analytics` collection, restricted to the fields used by
`isUniqueVisitor`. -/
structure AnalyticsEvent where
  urlId : Nat
  ipAddress : String
  timestamp : Nat
deriving Repr, DecidableEq

/-- `analyticsSchema.methods.isUniqueVisitor`: no event for the same url and ip
within the last 24 hours. -/
def isUniqueVisitor (now : Nat) (events : List AnalyticsEvent)
    (urlId : Nat) (ip : String) : Bool :=
  !(events.any (fun e =>
      e.urlId == urlId && e.ipAddress == ip && now - 24 * 60 * 60 * 1000 ≤ e.timestamp))

/-- Every redirect the endpoint issues carries HTTP status 301. -/
def redirectStatusIs301 : RedirectOutcome → Bool
  | .redirect s _ => s == 301
  | _ => true

/-- A candidate stream whose first 20 calls collide with the code "aaa" and whose
21st call yields a fresh code. -/
def genManyCollisions : Nat → String := fun i => if i < 20 then "aaa" else "bbbb"

/-- A plain creation request for `https://example.com` with no custom code and no
expiry. -/
def reqPlain : ShortenRequest :=
  { originalUrl := "https://example.com", customCode := none, title := none,
    description := none, expiresAt := none }

/-- Sum of the denormalized `clicks` counters over the store. -/
def totalClicks (s : Store) : Nat := (s.urls.map (fun u => u.clicks)).sum

/-- The `uniqueClicks` counters of all documents, in store order. -/
def uniqueClicksList (s : Store) : List Nat := s.urls.map (fun u => u.uniqueClicks)

/-! ## Helper lemmas -/

/-- If the generator keeps producing a colliding code, the uniqueness loop is
still running after any number of attempts. -/
theorem ensureUnique_stuck (store : Store) (c : String) (h : hasCode store c = true) :
    ∀ (fuel idx : Nat), ensureUnique store (fun _ => c) c idx fuel = none := by
  intro fuel
  induction fuel with
  | zero => intro idx; simp [ensureUnique, h]
  | succ n ih => intro idx; simp only [ensureUnique, h, if_true]; exact ih (idx + 1)

/-- A first candidate that is free is returned unchanged by the uniqueness loop. -/
theorem ensureUnique_free (store : Store) (gen : Nat → String) (c : String)
    (idx fuel : Nat) (h : hasCode store c = false) :
    ensureUnique store gen c idx fuel = some c := by
  cases fuel <;> simp [ensureUnique, h]

/-- Any code the uniqueness loop returns is absent from the store. -/
theorem ensureUnique_result_free (store : Store) (gen : Nat → String) :
    ∀ (fuel : Nat) (c : String) (idx : Nat) (code : String),
      ensureUnique store gen c idx fuel = some code → hasCode store code = false := by
  intro fuel
  induction fuel with
  | zero =>
    intro c idx code h
    by_cases hc : hasCode store c = true
    · simp [ensureUnique, hc] at h
    · simp [ensureUnique, hc] at h
      rw [← h]
      simpa using hc
  | succ n ih =>
    intro c idx code h
    by_cases hc : hasCode store c = true
    · simp only [ensureUnique, hc, if_true] at h
      exact ih _ _ _ h
    · simp [ensureUnique, hc] at h
      rw [← h]
      simpa using hc

/-- The custom-code availability check is at least as strict as the loop's
`findOne({ shortCode })` check. -/
theorem hasCode_false_of_customTaken_false (store : Store) (c : String)
    (h : customTaken store c = false) : hasCode store c = false := by
  simp only [customTaken, List.any_eq_false, Bool.or_eq_true, not_or] at h
  simp only [hasCode, List.any_eq_false]
  intro u hu
  exact (h u hu).1

/-- Characterization of a successful `Url.create`: the created document is the
built `urlData` (which passed full validation) and is appended to the store. -/
theorem finishCreate_created_spec (now newId : Nat) (userId : Option Nat)
    (req : ShortenRequest) (code : String) (store : Store) (d : UrlDoc) (st' : Store)
    (h : finishCreate now newId userId req code store = (.created d, st')) :
    d = mkUrlDoc newId userId req code ∧ urlDocValid now d = true
      ∧ st' = Store.mk (store.urls ++ [d]) := by
  unfold finishCreate at h
  cases hs : saveDoc now (mkUrlDoc newId userId req code) with
  | ok dd =>
    simp only [hs, Prod.mk.injEq, ShortenOutcome.created.injEq] at h
    obtain ⟨h1, h2⟩ := h
    unfold saveDoc at hs
    by_cases hv : urlDocValid now (mkUrlDoc newId userId req code) = true
    · rw [if_pos hv] at hs
      injection hs with hs
      subst hs
      subst h1
      exact ⟨rfl, hv, h2.symm⟩
    · rw [if_neg hv] at hs
      exact absurd hs (by simp)
  | error e =>
    simp [hs] at h

/-- Characterization of a successful `shortenUrl`: the created document is the
built `urlData` for a short code that was absent from the store, it passed full
validation, and it is appended to the store. -/
theorem shortenUrl_created_spec (gen : Nat → String) (fuel now newId : Nat)
    (userId : Option Nat) (req : ShortenRequest) (store : Store)
    (d : UrlDoc) (st' : Store)
    (h : shortenUrl gen fuel now newId userId req store = (.created d, st')) :
    d = mkUrlDoc newId userId req d.shortCode
      ∧ hasCode store d.shortCode = false
      ∧ urlDocValid now d = true
      ∧ st' = Store.mk (store.urls ++ [d]) := by
  unfold shortenUrl at h
  by_cases hv : validateUrl req.originalUrl = true
  · simp only [hv, Bool.not_true, Bool.false_eq_true, if_false] at h
    cases hcc : req.customCode with
    | some cc =>
      simp only [hcc] at h
      by_cases ht : customTaken store cc = true
      · simp [ht] at h
      · simp only [Bool.not_eq_true] at ht
        simp only [ht, Bool.false_eq_true, if_false] at h
        cases he : ensureUnique store gen cc 0 fuel with
        | none => simp [he] at h
        | some code =>
          simp only [he] at h
          obtain ⟨hd, hval, hst⟩ := finishCreate_created_spec now newId userId req code store d st' h
          have hsc : d.shortCode = code := by rw [hd]; rfl
          refine ⟨?_, ?_, hval, hst⟩
          · rw [hsc, hd]
          · rw [hsc]; exact ensureUnique_result_free store gen fuel cc 0 code he
    | none =>
      simp only [hcc] at h
      cases he : ensureUnique store gen (gen 0) 1 fuel with
      | none => simp [he] at h
      | some code =>
        simp only [he] at h
        obtain ⟨hd, hval, hst⟩ := finishCreate_created_spec now newId userId req code store d st' h
        have hsc : d.shortCode = code := by rw [hd]; rfl
        refine ⟨?_, ?_, hval, hst⟩
        · rw [hsc, hd]
        · rw [hsc]; exact ensureUnique_result_free store gen fuel (gen 0) 1 code he
  · simp only [Bool.not_eq_true] at hv
    simp [hv] at h

/-- `find?` skips a prefix on which it fails. -/
theorem find?_append_of_none {α : Type} (p : α → Bool) (l1 l2 : List α)
    (h : l1.find? p = none) : (l1 ++ l2).find? p = l2.find? p := by
  induction l1 with
  | nil => rfl
  | cons a t ih =>
    by_cases hp : p a = true
    · simp [List.find?_cons_of_pos _ hp] at h
    · rw [List.cons_append, List.find?_cons_of_neg _ hp]
      rw [List.find?_cons_of_neg _ hp] at h
      exact ih h

/-- A document whose `expiresAt` passes the save-time validator is not expired. -/
theorem not_expired_of_expiresAtValid (now : Nat) (u : UrlDoc)
    (h : expiresAtValid now u.expiresAt = true) : isExpired now u = false := by
  unfold expiresAtValid at h
  unfold isExpired
  cases he : u.expiresAt with
  | none => rfl
  | some e =>
    rw [he] at h
    simp only [decide_eq_true_eq] at h
    simp only [decide_eq_false_iff_not]
    omega

/-- `updateFirst` with a field-preserving update preserves the projection of the
whole list. -/
theorem updateFirst_map_eq {α : Type} (g : UrlDoc → α) (p : UrlDoc → Bool)
    (f : UrlDoc → UrlDoc) (hg : ∀ v, g (f v) = g v) :
    ∀ l : List UrlDoc, (updateFirst p f l).map g = l.map g := by
  intro l
  induction l with
  | nil => rfl
  | cons a t ih =>
    by_cases hp : p a = true <;> simp [updateFirst, hp, hg, ih]

/-- Applying the `$inc: { clicks: 1 }` update to the one matching document
raises the summed click counter by exactly 1. -/
theorem updateFirst_clicks_sum (cd : ClickData) (idv : Nat) :
    ∀ l : List UrlDoc, (∃ x ∈ l, (x.id == idv) = true) →
      ((updateFirst (fun v => v.id == idv) (applyClick cd) l).map (fun v => v.clicks)).sum
        = ((l.map (fun v => v.clicks)).sum) + 1 := by
  intro l
  induction l with
  | nil => intro h; simp at h
  | cons a t ih =>
    intro h
    by_cases hp : (a.id == idv) = true
    · simp [updateFirst, hp, applyClick]
      omega
    · obtain ⟨x, hx, hxid⟩ := h
      have hxt : x ∈ t := by
        rcases List.mem_cons.mp hx with rfl | h2
        · exact absurd hxid hp
        · exact h2
      simp [updateFirst, hp, ih ⟨x, hxt, hxid⟩]
      omega

/-! ## Theorems -/

/-- C1: the code returns the same `404 URL_NOT_FOUND` for a stored inactive link,
for a stored active-but-expired link, and for a code with no record at all — there
is no `INACTIVE` or `EXPIRED` typed error and no not-found/inactive/expired check
order: a single `findOne` query conflates the three states.  (The repository's own
tests expect 410 responses distinguishing inactive and expired from 404.) -/
theorem c1_resolver_collapses_inactive_and_expired_to_not_found :
    (redirectUrl (some (fun _ => none)) true 1000 "9.9.9.9" none none
        (Store.mk [{ baseDoc 1 "abc" "https://example.com" with isActive := false }])
        "abc").fst
      = RedirectOutcome.jsonError 404 "URL_NOT_FOUND"
  ∧ (redirectUrl (some (fun _ => none)) true 1000 "9.9.9.9" none none
        (Store.mk [{ baseDoc 2 "xyz" "https://example.com" with expiresAt := some 500 }])
        "xyz").fst
      = RedirectOutcome.jsonError 404 "URL_NOT_FOUND"
  ∧ (redirectUrl (some (fun _ => none)) true 1000 "9.9.9.9" none none
        (Store.mk []) "zzz").fst
      = RedirectOutcome.jsonError 404 "URL_NOT_FOUND" := by
  refine ⟨?_, ?_, ?_⟩ <;> decide

/-- C2 counterexample: for a stored active link, when the awaited click-recording
write fails the response is the error-handler path and no redirect is issued (and
the store is unchanged) — the redirect is NOT issued unconditionally once the
resolver approves. -/
theorem c2_click_write_failure_blocks_redirect :
    redirectUrl (some (fun _ => none)) false 1000 "9.9.9.9" none none
        (Store.mk [baseDoc 1 "abc" "https://example.com"]) "abc"
      = (RedirectOutcome.serverError "click write failed",
         Store.mk [baseDoc 1 "abc" "https://example.com"]) := by
  decide

/-- C2 amended: the click-recording write is awaited before the redirect is sent:
whenever the resolver approves a code, a failing write aborts the request with an
error (leaving the store unchanged), and the 301 redirect is issued exactly when
the write succeeds. -/
theorem c2_redirect_issued_iff_click_write_succeeds
    (geoF : String → Option GeoInfo) (now : Nat) (ip : String)
    (ua ref : Option String) (store : Store) (code : String) (u : UrlDoc)
    (h : findRedirectTarget now store code = some u) :
    redirectUrl (some geoF) false now ip ua ref store code
        = (RedirectOutcome.serverError "click write failed", store)
  ∧ (redirectUrl (some geoF) true now ip ua ref store code).fst
        = RedirectOutcome.redirect 301 u.originalUrl := by
  unfold redirectUrl
  rw [h]
  exact ⟨rfl, rfl⟩

/-- C2 witness: the amended statement at a concrete one-link store. -/
theorem c2_redirect_issued_iff_click_write_succeeds_witness :
    redirectUrl (some (fun _ => none)) false 1000 "9.9.9.9" none none
        (Store.mk [baseDoc 1 "abc" "https://example.com"]) "abc"
      = (RedirectOutcome.serverError "click write failed",
         Store.mk [baseDoc 1 "abc" "https://example.com"])
  ∧ (redirectUrl (some (fun _ => none)) true 1000 "9.9.9.9" none none
        (Store.mk [baseDoc 1 "abc" "https://example.com"]) "abc").fst
      = RedirectOutcome.redirect 301 (baseDoc 1 "abc" "https://example.com").originalUrl :=
  c2_redirect_issued_iff_click_write_succeeds (fun _ => none) 1000 "9.9.9.9" none none
    (Store.mk [baseDoc 1 "abc" "https://example.com"]) "abc"
    (baseDoc 1 "abc" "https://example.com") (by decide)

/-- C3: when the `geoip-lite` module is unavailable (`geoip === null`, exactly the
situation `initGeoip` tolerates), the unguarded `geoip.lookup(ip)` throws, the
request ends in the error handler, no click is recorded (store unchanged) and no
redirect is issued — contradicting the claimed graceful degradation.  Only the
narrower case of a loaded module whose lookup misses (`geoip.lookup` returning
null) records the click with country "Unknown" and still redirects. -/
theorem c3_geoip_module_unavailable_fails_redirect :
    redirectUrl none true 1000 "9.9.9.9" none none
        (Store.mk [baseDoc 1 "abc" "https://example.com"]) "abc"
      = (RedirectOutcome.serverError "geoip unavailable",
         Store.mk [baseDoc 1 "abc" "https://example.com"])
  ∧ redirectUrl (some (fun _ => none)) true 1000 "9.9.9.9" none none
        (Store.mk [baseDoc 1 "abc" "https://example.com"]) "abc"
      = (RedirectOutcome.redirect 301 "https://example.com",
         Store.mk [{ baseDoc 1 "abc" "https://example.com" with
            clicks := 1,
            clickHistory := [{ timestamp := 1000, ip := "9.9.9.9", userAgent := none,
                               referer := none, country := "Unknown",
                               city := "Unknown" }] }]) := by
  refine ⟨?_, ?_⟩ <;> decide

/-- C4 counterexample: with one stored link and a generator whose first 20 calls
all collide, allocation of a generated code runs the check loop past the claimed
10-attempt cap and then succeeds with the 21st candidate — there is no bound and
no GENERATION_EXHAUSTED failure. -/
theorem c4_twenty_collisions_still_succeed_without_exhaustion :
    shortenUrl genManyCollisions 30 1000 7 none reqPlain
        (Store.mk [baseDoc 1 "aaa" "https://example.com"])
      = (ShortenOutcome.created (mkUrlDoc 7 none reqPlain "bbbb"),
         Store.mk [baseDoc 1 "aaa" "https://example.com",
                   mkUrlDoc 7 none reqPlain "bbbb"]) := by
  decide

/-- C4 amended: the generate-and-check loop is unbounded — it retries until the
candidate stream yields an unused code, with no attempt cap and no
GENERATION_EXHAUSTED error.  If every candidate collides, the loop is still
running after any number of attempts; a stream whose 21st candidate is free makes
the loop succeed on that 21st candidate. -/
theorem c4_generation_loop_has_no_attempt_cap :
    (∀ (fuel idx : Nat),
        ensureUnique (Store.mk [baseDoc 1 "aaa" "https://example.com"])
          (fun _ => "aaa") "aaa" idx fuel = none)
  ∧ ensureUnique (Store.mk [baseDoc 1 "aaa" "https://example.com"])
        genManyCollisions (genManyCollisions 0) 1 30 = some "bbbb" := by
  refine ⟨ensureUnique_stuck _ _ (by decide), by decide⟩

/-- C5: creating with a custom code that is already taken fails with the typed
409 CODE_TAKEN error (the code's spelling of the spec's ALIAS_TAKEN) and leaves
the store unchanged; and whenever a creation carrying a custom code succeeds, the
created link's short code is exactly the supplied custom code — the allocator
never substitutes a generated code for a caller-supplied one. -/
theorem c5_custom_code_taken_or_used_verbatim (gen : Nat → String)
    (fuel now newId : Nat) (userId : Option Nat) (req : ShortenRequest)
    (store : Store) (cc : String) (hcc : req.customCode = some cc) :
    (customTaken store cc = true → validateUrl req.originalUrl = true →
        shortenUrl gen fuel now newId userId req store
          = (ShortenOutcome.jsonError 409 "CODE_TAKEN", store))
  ∧ (∀ (d : UrlDoc) (st' : Store),
        shortenUrl gen fuel now newId userId req store
          = (ShortenOutcome.created d, st') →
        d.shortCode = cc) := by
  constructor
  · intro ht hv
    unfold shortenUrl
    simp [hv, hcc, ht]
  · intro d st' h
    have hd := (shortenUrl_created_spec gen fuel now newId userId req store d st' h).1
    unfold shortenUrl at h
    by_cases hv : validateUrl req.originalUrl = true
    · simp only [hv, Bool.not_true, Bool.false_eq_true, if_false, hcc] at h
      by_cases ht : customTaken store cc = true
      · simp [ht] at h
      · simp only [Bool.not_eq_true] at ht
        simp only [ht, Bool.false_eq_true, if_false] at h
        rw [ensureUnique_free store gen cc 0 fuel
              (hasCode_false_of_customTaken_false store cc ht)] at h
        have := (finishCreate_created_spec now newId userId req cc store d st' h).1
        rw [this]
        rfl
    · simp only [Bool.not_eq_true] at hv
      simp [hv] at h

/-- C5 witness: a taken custom code at a concrete store is refused with 409
CODE_TAKEN and nothing is created. -/
theorem c5_custom_code_taken_or_used_verbatim_witness :
    shortenUrl (fun _ => "zzz") 5 1000 9 none
        { originalUrl := "https://example.com", customCode := some "taken1",
          title := none, description := none, expiresAt := none }
        (Store.mk [baseDoc 1 "taken1" "https://example.com"])
      = (ShortenOutcome.jsonError 409 "CODE_TAKEN",
         Store.mk [baseDoc 1 "taken1" "https://example.com"]) :=
  (c5_custom_code_taken_or_used_verbatim (fun _ => "zzz") 5 1000 9 none
      { originalUrl := "https://example.com", customCode := some "taken1",
        title := none, description := none, expiresAt := none }
      (Store.mk [baseDoc 1 "taken1" "https://example.com"]) "taken1" rfl).1
    (by decide) (by decide)

/-- C6: round trip — any creation that succeeds for a request with no expiry
yields a short code which, resolved against the post-creation store (with the
geolocation module loaded and the click write succeeding), redirects to exactly
the requested destination URL. -/
theorem c6_create_then_resolve_round_trip (gen : Nat → String)
    (fuel now newId : Nat) (userId : Option Nat) (req : ShortenRequest)
    (store : Store) (d : UrlDoc) (st' : Store) (geoF : String → Option GeoInfo)
    (now2 : Nat) (ip : String) (ua ref : Option String)
    (hexp : req.expiresAt = none)
    (h : shortenUrl gen fuel now newId userId req store
          = (ShortenOutcome.created d, st')) :
    (redirectUrl (some geoF) true now2 ip ua ref st' d.shortCode).fst
      = RedirectOutcome.redirect 301 req.originalUrl := by
  obtain ⟨hd, hfree, _, hst⟩ :=
    shortenUrl_created_spec gen fuel now newId userId req store d st' h
  subst hst
  have hnone : store.urls.find? (matchesRedirectQuery now2 d.shortCode) = none := by
    rw [List.find?_eq_none]
    intro u hu
    have hne : (u.shortCode == d.shortCode) = false := by
      simp only [hasCode, List.any_eq_false] at hfree
      simpa using hfree u hu
    simp [matchesRedirectQuery, hne]
  have hact : d.isActive = true := by rw [hd]; rfl
  have hexp2 : d.expiresAt = none := by rw [hd]; simpa [mkUrlDoc] using hexp
  have hfind : findRedirectTarget now2 (Store.mk (store.urls ++ [d])) d.shortCode
      = some d := by
    unfold findRedirectTarget
    rw [find?_append_of_none _ _ _ hnone]
    simp [List.find?, matchesRedirectQuery, hact, hexp2]
  have horig : d.originalUrl = req.originalUrl := by rw [hd]; rfl
  unfold redirectUrl
  simp [hfind, horig]

/-- C6 witness: creating `https://example.com` in an empty store and resolving
the returned code redirects to exactly `https://example.com`. -/
theorem c6_create_then_resolve_round_trip_witness :
    (redirectUrl (some (fun _ => none)) true 2000 "1.2.3.4" none none
        (Store.mk [mkUrlDoc 7 none reqPlain "abc12345"])
        (mkUrlDoc 7 none reqPlain "abc12345").shortCode).fst
      = RedirectOutcome.redirect 301 reqPlain.originalUrl :=
  c6_create_then_resolve_round_trip (fun _ => "abc12345") 5 1000 7 none reqPlain
    (Store.mk []) (mkUrlDoc 7 none reqPlain "abc12345")
    (Store.mk [mkUrlDoc 7 none reqPlain "abc12345"]) (fun _ => none) 2000 "1.2.3.4"
    none none rfl (by decide)

/-- C9: every redirect the resolve endpoint issues carries HTTP status 301
(permanent redirect) — `res.redirect(301, url.originalUrl)` is the only redirect
site. -/
theorem c9_successful_redirects_use_status_301
    (geoip : Option (String → Option GeoInfo)) (ok : Bool) (now : Nat)
    (ip : String) (ua ref : Option String) (store : Store) (code : String) :
    redirectStatusIs301 (redirectUrl geoip ok now ip ua ref store code).fst = true := by
  unfold redirectUrl
  cases hf : findRedirectTarget now store code with
  | none => rfl
  | some u =>
    cases geoip with
    | none => rfl
    | some lookup =>
      cases ok <;> rfl

/-- Concrete geoip module for the click-counter runs: loaded, but every lookup
misses. -/
def c7geo : Option (String → Option GeoInfo) := some (fun _ => none)

/-- One link, no clicks yet. -/
def c7s0 : Store := Store.mk [baseDoc 1 "abc" "https://example.com"]

/-- Store after a first click from 1.1.1.1. -/
def c7s1 : Store := (redirectUrl c7geo true 1000 "1.1.1.1" none none c7s0 "abc").snd

/-- Store after a second click from 1.1.1.1. -/
def c7s2 : Store := (redirectUrl c7geo true 2000 "1.1.1.1" none none c7s1 "abc").snd

/-- Store after a third click, from the distinct IP 2.2.2.2. -/
def c7s3 : Store := (redirectUrl c7geo true 3000 "2.2.2.2" none none c7s2 "abc").snd

/-- C7 counterexample: three successful clicks from two distinct IPs within 24
hours leave the link with click counter 3 but unique-visitor counter 0, not 2 —
the redirect path never updates `uniqueClicks` (the schema's `isUniqueVisitor` /
`incrementUniqueClicks` helpers are never invoked by it). -/
theorem c7_three_clicks_two_ips_leave_unique_counter_zero :
    (redirectUrl c7geo true 1000 "1.1.1.1" none none c7s0 "abc").fst
      = RedirectOutcome.redirect 301 "https://example.com"
  ∧ (redirectUrl c7geo true 2000 "1.1.1.1" none none c7s1 "abc").fst
      = RedirectOutcome.redirect 301 "https://example.com"
  ∧ (redirectUrl c7geo true 3000 "2.2.2.2" none none c7s2 "abc").fst
      = RedirectOutcome.redirect 301 "https://example.com"
  ∧ c7s3.urls.map (fun u => (u.clicks, u.uniqueClicks)) = [(3, 0)] := by
  refine ⟨?_, ?_, ?_, ?_⟩ <;> decide

/-- C7 amended: each successful resolve increments the aggregate click counter by
exactly 1 (one `$inc: { clicks: 1 }` on the matched document) and appends a click
event, but leaves every document's `uniqueClicks` counter unchanged — so after 3
clicks from 2 IPs the click counter is 3 and the unique-visitor counter still 0. -/
theorem c7_resolve_bumps_clicks_and_never_unique (geoF : String → Option GeoInfo)
    (now : Nat) (ip : String) (ua ref : Option String) (store : Store)
    (code : String) (u : UrlDoc)
    (h : findRedirectTarget now store code = some u) :
    (redirectUrl (some geoF) true now ip ua ref store code).fst
      = RedirectOutcome.redirect 301 u.originalUrl
  ∧ totalClicks (redirectUrl (some geoF) true now ip ua ref store code).snd
      = totalClicks store + 1
  ∧ uniqueClicksList (redirectUrl (some geoF) true now ip ua ref store code).snd
      = uniqueClicksList store := by
  have hmem : u ∈ store.urls := List.mem_of_find?_eq_some h
  have heq : redirectUrl (some geoF) true now ip ua ref store code
      = (RedirectOutcome.redirect 301 u.originalUrl,
         recordClick u.id (mkClickData now ip ua ref (geoF ip)) store) := by
    unfold redirectUrl
    rw [h]
    rfl
  rw [heq]
  refine ⟨rfl, ?_, ?_⟩
  · unfold totalClicks recordClick
    exact updateFirst_clicks_sum _ _ _ ⟨u, hmem, by simp⟩
  · unfold uniqueClicksList recordClick
    exact updateFirst_map_eq (fun v => v.uniqueClicks) (fun v => v.id == u.id)
      (applyClick (mkClickData now ip ua ref (geoF ip))) (fun v => rfl) store.urls

/-- C7 witness: the amended statement at a concrete one-link store. -/
theorem c7_resolve_bumps_clicks_and_never_unique_witness :
    (redirectUrl (some (fun _ => none)) true 1000 "7.7.7.7" none none
        (Store.mk [baseDoc 3 "qqq" "https://example.org"]) "qqq").fst
      = RedirectOutcome.redirect 301 (baseDoc 3 "qqq" "https://example.org").originalUrl
  ∧ totalClicks (redirectUrl (some (fun _ => none)) true 1000 "7.7.7.7" none none
        (Store.mk [baseDoc 3 "qqq" "https://example.org"]) "qqq").snd
      = totalClicks (Store.mk [baseDoc 3 "qqq" "https://example.org"]) + 1
  ∧ uniqueClicksList (redirectUrl (some (fun _ => none)) true 1000 "7.7.7.7" none none
        (Store.mk [baseDoc 3 "qqq" "https://example.org"]) "qqq").snd
      = uniqueClicksList (Store.mk [baseDoc 3 "qqq" "https://example.org"]) :=
  c7_resolve_bumps_clicks_and_never_unique (fun _ => none) 1000 "7.7.7.7" none none
    (Store.mk [baseDoc 3 "qqq" "https://example.org"]) "qqq"
    (baseDoc 3 "qqq" "https://example.org") (by decide)

/-- C8 counterexample: the claim's accepted set and defaults do not match the
code — the validation middleware rejects "90d" (not in `['24h','7d','30d','all']`),
the shortCode-based per-link switch treats "all" like the 7d fallback rather than
all-time, the id-based per-link query defaults to "30d" (not 7d), and its switch
sends "all" to the link's creation date. -/
theorem c8_timeframe_set_and_defaults_mismatch :
    validateAnalyticsQuery (some "90d") = false
  ∧ urlTimeframeHours "all" = urlTimeframeHours "7d"
  ∧ urlCtrlTimeframe none = "30d"
  ∧ urlCtrlStartDate 1000000000 123 "all" = 123 := by
  refine ⟨?_, ?_, ?_, ?_⟩ <;> decide

/-- C8 amended: the validation middleware accepts exactly {24h, 7d, 30d, all}
(rejecting 90d and anything else with a 400); an absent timeframe defaults to 7d
in the shortCode-based per-link query and to 30d in the id-based per-link,
per-owner and system queries; inside the controllers the shortCode-based switch
sends anything outside {24h,7d,30d,90d} to the 7-day window, the id-based switch
sends anything outside {24h,7d,30d} to all-time since creation, and the
per-owner/system switch sends anything outside {7d,30d,90d} to the 30-day
window. -/
theorem c8_timeframe_validation_and_fallbacks :
    (∀ t : String, validateAnalyticsQuery (some t) = true ↔
        (t = "24h" ∨ t = "7d" ∨ t = "30d" ∨ t = "all"))
  ∧ validateAnalyticsQuery none = true
  ∧ urlAnalyticsTimeframe none = "7d"
  ∧ urlCtrlTimeframe none = "30d"
  ∧ userAnalyticsTimeframe none = "30d"
  ∧ (∀ t : String, t ≠ "24h" → t ≠ "7d" → t ≠ "30d" → t ≠ "90d" →
        urlTimeframeHours t = 7 * 24)
  ∧ (∀ (nowv createdAt : Nat) (t : String), t ≠ "24h" → t ≠ "7d" → t ≠ "30d" →
        urlCtrlStartDate nowv createdAt t = createdAt)
  ∧ (∀ t : String, t ≠ "7d" → t ≠ "30d" → t ≠ "90d" →
        userTimeframeHours t = 30 * 24)
  ∧ urlTimeframeHours "90d" = 90 * 24 := by
  refine ⟨?_, by decide, by decide, by decide, by decide, ?_, ?_, ?_, by decide⟩
  · intro t
    simp [validateAnalyticsQuery, or_assoc]
  · intro t h1 h2 h3 h4
    simp [urlTimeframeHours, h1, h2, h3, h4]
  · intro nowv createdAt t h1 h2 h3
    simp [urlCtrlStartDate, h1, h2, h3]
  · intro t h1 h2 h3
    simp [userTimeframeHours, h1, h2, h3]

/-- C8 witness: the amended statement at concrete timeframe strings. -/
theorem c8_timeframe_validation_and_fallbacks_witness :
    (validateAnalyticsQuery (some "90d") = true ↔
        ("90d" = "24h" ∨ "90d" = "7d" ∨ "90d" = "30d" ∨ "90d" = "all"))
  ∧ urlTimeframeHours "1y" = 7 * 24
  ∧ urlCtrlStartDate 5 3 "1y" = 3
  ∧ userTimeframeHours "1y" = 30 * 24 :=
  ⟨c8_timeframe_validation_and_fallbacks.1 "90d",
   c8_timeframe_validation_and_fallbacks.2.2.2.2.2.1 "1y"
     (by decide) (by decide) (by decide) (by decide),
   c8_timeframe_validation_and_fallbacks.2.2.2.2.2.2.1 5 3 "1y"
     (by decide) (by decide) (by decide),
   c8_timeframe_validation_and_fallbacks.2.2.2.2.2.2.2.1 "1y"
     (by decide) (by decide) (by decide)⟩

/-- C10: the mongoose save path enforces the `expiresAt` validator — a document
saves only if its expiry is unset or strictly in the future; a successful
creation never yields an already-expired link; and any save-based mutation of an
expired link (such as `incrementClicks`, which persists via `save`) fails with a
validation error. -/
theorem c10_save_rejects_past_expiry :
    (∀ (now : Nat) (u d : UrlDoc), saveDoc now u = Except.ok d →
        expiresAtValid now u.expiresAt = true)
  ∧ (∀ (gen : Nat → String) (fuel now newId : Nat) (userId : Option Nat)
        (req : ShortenRequest) (store : Store) (d : UrlDoc) (st' : Store),
        shortenUrl gen fuel now newId userId req store
          = (ShortenOutcome.created d, st') →
        isExpired now d = false)
  ∧ (∀ (now : Nat) (u : UrlDoc), isExpired now u = true →
        incrementClicks now u = Except.error "ValidationError") := by
  refine ⟨?_, ?_, ?_⟩
  · intro now u d h
    unfold saveDoc at h
    by_cases hv : urlDocValid now u = true
    · unfold urlDocValid at hv
      simp only [Bool.and_eq_true] at hv
      exact hv.2
    · rw [if_neg hv] at h
      exact absurd h (by simp)
  · intro gen fuel now newId userId req store d st' h
    have hval :=
      (shortenUrl_created_spec gen fuel now newId userId req store d st' h).2.2.1
    unfold urlDocValid at hval
    simp only [Bool.and_eq_true] at hval
    exact not_expired_of_expiresAtValid now d hval.2
  · intro now u h
    unfold incrementClicks saveDoc
    unfold isExpired at h
    have hnv : expiresAtValid now u.expiresAt = false := by
      unfold expiresAtValid
      cases he : u.expiresAt with
      | none => rw [he] at h; exact absurd h (by simp)
      | some e =>
        rw [he] at h
        simp only [decide_eq_true_eq] at h
        simp only [decide_eq_false_iff_not]
        omega
    have : urlDocValid now
        { u with clicks := u.clicks + 1,
                 analyticsTotalClicks := u.analyticsTotalClicks + 1,
                 lastAccessedAt := some now } = false := by
      unfold urlDocValid
      simp [hnv]
    simp [this]

/-- C10 witness: the three parts at concrete documents — a default document saves
(its `expiresAt` is valid), a concretely created document is unexpired, and
`incrementClicks` on an expired document fails validation. -/
theorem c10_save_rejects_past_expiry_witness :
    expiresAtValid 500 (baseDoc 1 "abc" "https://example.com").expiresAt = true
  ∧ isExpired 1000 (mkUrlDoc 7 none reqPlain "abc12345") = false
  ∧ incrementClicks 1000 { baseDoc 1 "abc" "https://example.com" with expiresAt := some 5 }
      = Except.error "ValidationError" :=
  ⟨c10_save_rejects_past_expiry.1 500 (baseDoc 1 "abc" "https://example.com")
      (baseDoc 1 "abc" "https://example.com") (by rfl),
   c10_save_rejects_past_expiry.2.1 (fun _ => "abc12345") 5 1000 7 none reqPlain
      (Store.mk []) (mkUrlDoc 7 none reqPlain "abc12345")
      (Store.mk [mkUrlDoc 7 none reqPlain "abc12345"]) (by decide),
   c10_save_rejects_past_expiry.2.2 1000
      { baseDoc 1 "abc" "https://example.com" with expiresAt := some 5 } (by decide)⟩

end UrlShortener
